import Mathlib

/-!
Formal model of the transaction-to-ledger synchronization engine of the
ai-cfo-mvp repository (data_sync_script.py, database_module.py, mock_data.py).

Python functions are embedded as pure Lean functions; the remote QuickBooks
ledger and the local SQLite store become explicit state values threaded
through the sync loop; remote API behaviour (entity lookup / creation
responses) is abstracted into environment records of response functions;
fallible Python calls become `Except`.  Machine floats are modelled as
rationals, with Python `round(x, 2)` modelled as round-half-to-even at two
decimal places.
-/

/-- Python's truthiness-based `s or default` for an optional string:
`None` and the empty string both fall through to the default. -/
def pyOrStr (s : Option String) (dflt : String) : String :=
  match s with
  | none => dflt
  | some v => if v = "" then dflt else v

/-- Floor of a rational, computed from numerator and denominator. -/
def ratFloor (q : ℚ) : ℤ := Int.fdiv q.num (q.den : ℤ)

/-- Round-half-to-even to an integer (the rounding Python's `round` uses). -/
def roundHalfEven (q : ℚ) : ℤ :=
  let f := ratFloor q
  let r := q - (f : ℚ)
  if r < 1/2 then f
  else if 1/2 < r then f + 1
  else if f % 2 = 0 then f else f + 1

/-- Python `round(x, 2)`: round to two decimal places, half to even. -/
def pyRound2 (q : ℚ) : ℚ := ((roundHalfEven (q * 100) : ℤ) : ℚ) / 100

/-- Whether the first character list is a prefix of the second. -/
def charsPrefix : List Char → List Char → Bool
  | [], _ => true
  | _ :: _, [] => false
  | a :: as, b :: bs => a == b && charsPrefix as bs

/-- Whether the first character list occurs contiguously in the second. -/
def charsInfix (needle : List Char) : List Char → Bool
  | [] => charsPrefix needle []
  | b :: bs => charsPrefix needle (b :: bs) || charsInfix needle bs

/-- Python's substring test `needle in haystack` on strings. -/
def strIn (needle haystack : String) : Bool :=
  charsInfix needle.toList haystack.toList

/-- ASCII lowercase of one character (what Python's `str.lower` does on the
ASCII category strings this code handles). -/
def pyLowerChar (c : Char) : Char :=
  if 'A' ≤ c ∧ c ≤ 'Z' then Char.ofNat (c.toNat + 32) else c

/-- ASCII lowercase of a string. -/
def pyLower (s : String) : String := String.mk (s.data.map pyLowerChar)

/-- The ordered keyword-to-account table of `map_plaid_category_to_qb`
(data_sync_script.py lines 286-298), in source (insertion) order. -/
def qbCategoryMapping : List (String × (String × String × Option String)) :=
  [ ("advertising", ("Advertising", "Expense", some "Advertising"))
  , ("marketing", ("Advertising", "Expense", some "Advertising"))
  , ("travel", ("Travel", "Expense", some "Travel"))
  , ("restaurant", ("Meals and Entertainment", "Expense", some "MealsAndEntertainment"))
  , ("software", ("Software Subscriptions", "Expense", some "OfficeSupplies"))
  , ("utilities", ("Utilities", "Expense", some "Utilities"))
  , ("rent", ("Rent or Lease", "Expense", some "RentOrLeaseOfBuildings"))
  , ("office", ("Office Supplies", "Expense", some "OfficeSupplies"))
  , ("insurance", ("Insurance", "Expense", some "Insurance"))
  , ("fee", ("Bank Charges", "Expense", some "BankCharges"))
  , ("service", ("Legal & Professional Fees", "Expense", some "LegalProfessionalFees")) ]

/-- Function `map_plaid_category_to_qb` (data_sync_script.py lines 279-302): income maps
to the canonical sales account; otherwise the lowercased category is matched by
substring against the ordered keyword table, first match winning, with the
"Uncategorized Expense" fallback. -/
def map_plaid_category_to_qb (category : String) (is_income : Bool) :
    String × String × Option String :=
  if is_income then ("Sales", "Income", some "SalesOfProductIncome")
  else
    let cat := pyLower category
    match qbCategoryMapping.find? (fun p => strIn p.1 cat) with
    | some p => p.2
    | none => ("Uncategorized Expense", "Expense", some "UncategorizedExpense")

/-- A transaction record as assembled by `sync_plaid_transactions`
(`transaction_data` dict, data_sync_script.py lines 598-634). -/
structure Txn where
  account_id : Nat
  transaction_id : String
  amount : ℚ
  date : String
  merchant_name : Option String
  category : String
  pending : Bool
deriving DecidableEq, Repr

/-- A raw transaction as reported by the Plaid aggregator (vendor sign
convention: outflow positive). -/
structure PlaidTxn where
  transaction_id : String
  amount : ℚ
  date : String
  merchant_name : Option String
  category : List String
  pending : Bool
deriving DecidableEq, Repr

/-- The `transaction_data` dict built at ingestion for a fetched Plaid
transaction (data_sync_script.py lines 622-634, dict-response branch):
the stored amount is the negation of the vendor-reported amount. -/
def mkTransactionData (localAccountId : Nat) (tr : PlaidTxn) : Txn :=
  { account_id := localAccountId
  , transaction_id := tr.transaction_id
  , amount := -tr.amount
  , date := tr.date
  , merchant_name := some (tr.merchant_name.getD "Unknown")
  , category := String.intercalate "," tr.category
  , pending := tr.pending }

/-- Downstream classification (data_sync_script.py line 645 and line 812):
a transaction is income exactly when its stored amount is positive. -/
def is_income (t : Txn) : Bool := decide (0 < t.amount)

/-- A stored row of the `transactions` table (database_module.py lines 71-84;
`plaid_transaction_id` carries a UNIQUE constraint). -/
structure TxRow where
  id : Nat
  account_id : Nat
  plaid_transaction_id : String
  amount : ℚ
  date : String
  merchant_name : Option String
  category : String
  pending : Bool
deriving DecidableEq, Repr

/-- The local store: the `transactions` table plus its autoincrement counter. -/
structure LocalDB where
  rows : List TxRow
  nextId : Nat
deriving DecidableEq, Repr

/-- The row `save_transaction` would insert for a transaction. -/
def mkTxRow (db : LocalDB) (t : Txn) : TxRow :=
  { id := db.nextId
  , account_id := t.account_id
  , plaid_transaction_id := t.transaction_id
  , amount := t.amount
  , date := t.date
  , merchant_name := t.merchant_name
  , category := t.category
  , pending := t.pending }

/-- Method `DatabaseManager.save_transaction` (database_module.py lines 343-370):
`INSERT OR IGNORE` keyed on the UNIQUE `plaid_transaction_id`.  When the
identifier is new, a row is inserted and its (positive) rowid returned; when
it already exists the insert is ignored and, the connection being fresh,
`cursor.lastrowid` is 0, which is returned with the store unchanged. -/
def save_transaction (db : LocalDB) (t : Txn) : LocalDB × Nat :=
  if db.rows.any (fun r => r.plaid_transaction_id == t.transaction_id) then
    (db, 0)
  else
    ({ rows := db.rows ++ [mkTxRow db t], nextId := db.nextId + 1 }, db.nextId)

/-- The kind of ledger document a QuickBooks entity query targets
(`Invoice`, `Bill` or `JournalEntry`). -/
inductive DocType
  | invoice
  | bill
  | journal
deriving DecidableEq, Repr

/-- A posted ledger document, as observable through the private-note queries
the sync issues (entity kind plus the `PrivateNote` natural-key marker). -/
structure LedgerDoc where
  docType : DocType
  privateNote : String
deriving DecidableEq, Repr

/-- The external ledger's document store, in posting order. -/
abbrev Ledger := List LedgerDoc

/-- The natural-key marker `PLD:<transaction_id>` embedded in `PrivateNote`
(data_sync_script.py lines 183, 208, 801). -/
def pldNote (transactionId : String) : String := "PLD:" ++ transactionId

/-- Function `qb_find_invoice_by_privatenote` (data_sync_script.py lines 159-168):
first `Invoice` whose `PrivateNote` equals the given marker. -/
def qb_find_invoice_by_privatenote (led : Ledger) (note : String) : Option LedgerDoc :=
  led.find? (fun d => d.docType == DocType.invoice && d.privateNote == note)

/-- Function `qb_find_bill_by_privatenote` (data_sync_script.py lines 171-179). -/
def qb_find_bill_by_privatenote (led : Ledger) (note : String) : Option LedgerDoc :=
  led.find? (fun d => d.docType == DocType.bill && d.privateNote == note)

/-- Function `qb_find_journal_by_privatenote` (data_sync_script.py lines 752-759). -/
def qb_find_journal_by_privatenote (led : Ledger) (note : String) : Option LedgerDoc :=
  led.find? (fun d => d.docType == DocType.journal && d.privateNote == note)

/-- Function `qb_create_invoice_from_txn` (data_sync_script.py lines 182-204): look up
an existing invoice bearing the marker; if found create nothing (`None`),
otherwise post a new invoice carrying the marker in its `PrivateNote`. -/
def qb_create_invoice_from_txn (led : Ledger) (t : Txn) : Ledger × Option LedgerDoc :=
  let note := pldNote t.transaction_id
  match qb_find_invoice_by_privatenote led note with
  | some _ => (led, none)
  | none =>
      let doc : LedgerDoc := ⟨DocType.invoice, note⟩
      (led ++ [doc], some doc)

/-- Function `qb_create_bill_from_txn` (data_sync_script.py lines 207-233): same
lookup-before-create guard for bills. -/
def qb_create_bill_from_txn (led : Ledger) (t : Txn) : Ledger × Option LedgerDoc :=
  let note := pldNote t.transaction_id
  match qb_find_bill_by_privatenote led note with
  | some _ => (led, none)
  | none =>
      let doc : LedgerDoc := ⟨DocType.bill, note⟩
      (led ++ [doc], some doc)

/-- A QuickBooks account reference (`AccountRef` value and name). -/
structure AccountRef where
  refId : String
  refName : String
deriving DecidableEq, Repr

/-- A row of the local `bank_accounts` table, as far as the journal builder
reads it (`name` and `mask`, either possibly missing or empty). -/
structure LocalAccount where
  name : Option String
  mask : Option String
deriving DecidableEq, Repr

/-- Debit or credit side of a journal line. -/
inductive PostingType
  | debit
  | credit
deriving DecidableEq, Repr

/-- One journal-entry line as built by `build_qb_journal_entry_lines`. -/
structure JournalLine where
  description : String
  amount : ℚ
  postingType : PostingType
  accountRef : AccountRef
deriving DecidableEq, Repr

/-- A `JournalEntry` payload as assembled by `build_batch_journal_items`. -/
structure JournalEntry where
  txnDate : String
  privateNote : String
  line : List JournalLine
deriving DecidableEq, Repr

/-- One `BatchItemRequest` (`bId`, `operation: create`, journal payload). -/
structure BatchItem where
  bId : String
  journalEntry : JournalEntry
deriving DecidableEq, Repr

/-- Function `build_qb_journal_entry_lines` (data_sync_script.py lines 762-788): two
lines, debit first, both carrying `round(abs(amount), 2)`. -/
def build_qb_journal_entry_lines (amount : ℚ) (debit_acc credit_acc : AccountRef)
    (desc : String) : List JournalLine :=
  let amt := pyRound2 |amount|
  [ ⟨desc, amt, PostingType.debit, debit_acc⟩
  , ⟨desc, amt, PostingType.credit, credit_acc⟩ ]

/-- The bank-account display name the builder assembles
(data_sync_script.py lines 806-810): `local_acct.get("name") or "Bank"`,
with the mask appended in parentheses when truthy. -/
def bankDisplayName (acct : Option LocalAccount) : String :=
  match acct with
  | none => "Bank"
  | some a =>
      let base := pyOrStr a.name "Bank"
      match a.mask with
      | none => base
      | some m => if m = "" then base else base ++ " (" ++ m ++ ")"

/-- Account resolution as the journal builder sees it: an oracle mapping
`(name, account_type, subtype)` to the resolved QuickBooks account, standing
for a succeeding `ensure_qb_account` round trip. -/
abbrev EnsureAcc := String → String → Option String → AccountRef

/-- The `JournalEntry` payload `build_batch_journal_items` constructs for one
transaction (data_sync_script.py lines 806-833): resolve the bank account and
the mapped category account, pick debit/credit sides by the sign of the
amount, and build the two balanced lines. -/
def mkJournalForTxn (ensureAcc : EnsureAcc) (localAccounts : Nat → Option LocalAccount)
    (t : Txn) : JournalEntry :=
  let privatenote := pldNote t.transaction_id
  let bank_acc := ensureAcc (bankDisplayName (localAccounts t.account_id)) "Bank" none
  let inc := is_income t
  let qbm := map_plaid_category_to_qb t.category inc
  let cat_acc := ensureAcc qbm.1 qbm.2.1 qbm.2.2
  let sides := if inc then (bank_acc, cat_acc) else (cat_acc, bank_acc)
  { txnDate := t.date
  , privateNote := privatenote
  , line := build_qb_journal_entry_lines t.amount sides.1 sides.2
      (pyOrStr t.merchant_name privatenote) }

/-- Loop body of `build_batch_journal_items` (data_sync_script.py lines
797-842): stop (`break`) once 30 items are collected; skip a transaction
whose journal marker already exists in the ledger; otherwise append a
`create` batch item for it. -/
def buildBatchAux (ensureAcc : EnsureAcc) (localAccounts : Nat → Option LocalAccount)
    (led : Ledger) : List Txn → List BatchItem → List BatchItem
  | [], items => items
  | t :: ts, items =>
      if 30 ≤ items.length then items
      else
        let privatenote := pldNote t.transaction_id
        if (qb_find_journal_by_privatenote led privatenote).isSome then
          buildBatchAux ensureAcc localAccounts led ts items
        else
          buildBatchAux ensureAcc localAccounts led ts
            (items ++ [⟨privatenote, mkJournalForTxn ensureAcc localAccounts t⟩])

/-- Function `build_batch_journal_items` (data_sync_script.py lines 791-842): at most
30 `BatchItemRequest`s for `JournalEntry` creation, one single pass. -/
def build_batch_journal_items (ensureAcc : EnsureAcc)
    (localAccounts : Nat → Option LocalAccount) (led : Ledger) (txns : List Txn) :
    List BatchItem :=
  buildBatchAux ensureAcc localAccounts led txns []

/-- The payload `qb_batch_post` submits (data_sync_script.py lines 845-847):
the given items, as one batch request. -/
structure BatchPayload where
  batchItemRequest : List BatchItem
deriving DecidableEq, Repr

/-- Function `qb_batch_post`: wrap the items into a single `BatchItemRequest` payload. -/
def qb_batch_post (batch_items : List BatchItem) : BatchPayload :=
  ⟨batch_items⟩

/-- Effect of a posted batch on the ledger: each `create` item adds one
journal entry bearing the payload's private note. -/
def postBatchToLedger (led : Ledger) (items : List BatchItem) : Ledger :=
  led ++ items.map (fun it => ⟨DocType.journal, it.journalEntry.privateNote⟩)

/-- Number of ledger documents of a given kind bearing a given marker. -/
def countMarker (led : Ledger) (dt : DocType) (note : String) : Nat :=
  (led.filter (fun d => d.docType == dt && d.privateNote == note)).length

/-- Ledger effect of the per-transaction document creation in
`sync_plaid_transactions` (data_sync_script.py lines 645-699): an invoice for
a positive stored amount, a bill otherwise. -/
def syncTxnDoc (led : Ledger) (t : Txn) : Ledger :=
  if 0 < t.amount then (qb_create_invoice_from_txn led t).1
  else (qb_create_bill_from_txn led t).1

/-- State threaded through `sync_plaid_transactions`: the local store, the
remote ledger, and the `transactions_synced` counter. -/
structure SyncState where
  db : LocalDB
  ledger : Ledger
  synced : Nat
deriving DecidableEq, Repr

/-- One iteration of the `sync_plaid_transactions` loop (data_sync_script.py
lines 636-729): `save_transaction` is called but its idempotency signal is
ignored (the `if not inserted: continue` guard at lines 637-639 is commented
out in the source), the counter is always incremented, and, when QuickBooks
tokens are present, invoice/bill creation is attempted, guarded only by the
remote private-note lookup. -/
def processTxn (qbTokensPresent : Bool) (s : SyncState) (t : Txn) : SyncState :=
  let saved := save_transaction s.db t
  { db := saved.1
  , ledger := if qbTokensPresent then syncTxnDoc s.ledger t else s.ledger
  , synced := s.synced + 1 }

/-- The whole `sync_plaid_transactions` loop over a transaction window. -/
def syncTransactionsLoop (qbTokensPresent : Bool) (s : SyncState) (txns : List Txn) :
    SyncState :=
  txns.foldl (processTxn qbTokensPresent) s

/-- Ledger effect of one full synchronization over a transaction window, with
QuickBooks connected: the per-transaction invoice/bill pass of
`sync_plaid_transactions`, followed by building and posting one batch of
journal items (`build_batch_journal_items` / `qb_batch_post`). -/
def fullSyncLedger (ensureAcc : EnsureAcc) (localAccounts : Nat → Option LocalAccount)
    (led : Ledger) (txns : List Txn) : Ledger :=
  let led1 := (syncTransactionsLoop true ⟨⟨[], 1⟩, led, 0⟩ txns).ledger
  postBatchToLedger led1 (build_batch_journal_items ensureAcc localAccounts led1 txns)

/-- A QuickBooks entity as returned by find/create helpers (`Id` may be
`None` in the synthetic-placeholder fallback of `_qb_safe_create`). -/
structure QBEntity where
  entId : Option String
  entName : String
deriving DecidableEq, Repr

/-- A fault raised by a QuickBooks create call: the duplicate-name fault
(code 6240) or any other error. -/
inductive QBFault
  | duplicateName
  | other (msg : String)
deriving DecidableEq, Repr

/-- The QuickBooks API as observed by the entity helpers: responses to
name lookups and to create requests.  `findEntity` models
`qb_find_entity_by_name`, which catches query errors and returns `None`;
`getAccountByName` models `qb_get_account_by_name`; the create fields model
the POST endpoints, which raise on a fault. -/
structure QBEnv where
  findEntity : String → String → Option QBEntity
  createEntity : String → String → Except QBFault QBEntity
  getAccountByName : String → Option QBEntity
  createAccount : String → String → Option String → Except QBFault QBEntity

/-- Loop of `_qb_safe_create` (data_sync_script.py lines 98-121), with fuel
for the three `for attempt in range(0, 3)` iterations and a counter of
create attempts made.  On a duplicate-name fault the pre-existing entity is
fetched (for `Customer`/`Vendor`/`Item`); if the fetch finds nothing the name
is retried with the suffix `-<attempt+1>`.  Any other fault propagates.
After the loop the base name is looked up once more, falling back to the
synthetic `{"Id": None, "Name": base_name}` placeholder (lines 122-126). -/
def qb_safe_create_loop (env : QBEnv) (rootKey baseName : String) :
    Nat → String → Nat → Except QBFault QBEntity × Nat
  | 0, _, attempts =>
      (match env.findEntity rootKey baseName with
       | some e => Except.ok e
       | none => Except.ok ⟨none, baseName⟩, attempts)
  | fuel + 1, name, attempts =>
      match env.createEntity rootKey name with
      | Except.ok e => (Except.ok e, attempts + 1)
      | Except.error QBFault.duplicateName =>
          let existing :=
            if rootKey = "Customer" ∨ rootKey = "Vendor" ∨ rootKey = "Item" then
              env.findEntity rootKey name
            else none
          match existing with
          | some e => (Except.ok e, attempts + 1)
          | none =>
              qb_safe_create_loop env rootKey baseName fuel
                (baseName ++ "-" ++ toString (3 - fuel)) (attempts + 1)
      | Except.error f => (Except.error f, attempts + 1)

/-- Function `_qb_safe_create` (data_sync_script.py lines 93-126), paired with the
number of creation attempts it issued. -/
def qb_safe_create (env : QBEnv) (rootKey name : String) :
    Except QBFault QBEntity × Nat :=
  qb_safe_create_loop env rootKey name 3 name 0

/-- Function `qb_get_account_by_name` (data_sync_script.py lines 250-257). -/
def qb_get_account_by_name (env : QBEnv) (name : String) : Option QBEntity :=
  env.getAccountByName name

/-- Function `qb_create_account` (data_sync_script.py lines 260-267): a direct POST;
any fault — the duplicate-name fault included — propagates to the caller. -/
def qb_create_account (env : QBEnv) (name accountType : String)
    (subtype : Option String) : Except QBFault QBEntity :=
  env.createAccount name accountType subtype

/-- Function `ensure_qb_account` (data_sync_script.py lines 270-276): look up by name;
if absent, create once via `qb_create_account` — with no recovery wrapper. -/
def ensure_qb_account (env : QBEnv) (name accountType : String)
    (subtype : Option String) : Except QBFault QBEntity :=
  match qb_get_account_by_name env name with
  | some a => Except.ok a
  | none => qb_create_account env name accountType subtype

/-- A row of the `sync_log` table as written by `DatabaseManager.log_sync`
(database_module.py lines 427-440). -/
structure LogEntry where
  company_id : Nat
  api_type : String
  sync_type : String
  records_synced : Nat
  success : Bool
  error_message : Option String
deriving DecidableEq, Repr

/-- Environment of one `sync_plaid_data` run: whether the Plaid client was
constructed, the outcome of the stored-token fetch, the outcome of mock
seeding (`seed_mock_plaid`: accounts and transactions seeded, or an error),
and the outcome of the real account/transaction sync (counts or an error). -/
structure PlaidSyncEnv where
  clientAvailable : Bool
  tokenResult : Except String (Option String)
  seedResult : Except String (Nat × Nat)
  syncResult : Except String (Nat × Nat)
deriving Repr

/-- The fallback block of `sync_plaid_data`'s outer `except` handler
(data_sync_script.py lines 456-477): seed mock data and log a `mock_seed`
success, or — if seeding itself fails — log one failed `full_sync` entry. -/
def plaidFallbackSeed (companyId : Nat) (env : PlaidSyncEnv) (apiError : String) :
    Except String Bool × List LogEntry :=
  match env.seedResult with
  | Except.ok (accCount, txCount) =>
      (Except.ok true,
        [⟨companyId, "plaid", "mock_seed", accCount + txCount, true, none⟩])
  | Except.error inner =>
      (Except.ok false,
        [⟨companyId, "plaid", "full_sync", 0, false,
          some ("api_error=" ++ apiError ++ "; mock_error=" ++ inner)⟩])

/-- Function `sync_plaid_data` (data_sync_script.py lines 399-477) over an abstract
token-fetch outcome, returning the Python return value (or the uncaught
exception) together with the `sync_log` rows appended during the run.
Branches: no client → seed and log outside any `try` (a seeding failure
propagates unlogged); token fetch raising or missing token or sync failure →
the fallback handler; a successful full sync → one `full_sync` success log. -/
def sync_plaid_data_core (companyId : Nat) (env : PlaidSyncEnv) :
    Except String Bool × List LogEntry :=
  if env.clientAvailable = false then
    match env.seedResult with
    | Except.ok (accCount, txCount) =>
        (Except.ok true,
          [⟨companyId, "plaid", "mock_seed", accCount + txCount, true, none⟩])
    | Except.error e => (Except.error e, [])
  else
    match env.tokenResult with
    | Except.error e => plaidFallbackSeed companyId env e
    | Except.ok none =>
        match env.seedResult with
        | Except.ok (accCount, txCount) =>
            (Except.ok true,
              [⟨companyId, "plaid", "mock_seed", accCount + txCount, true, none⟩])
        | Except.error e => plaidFallbackSeed companyId env e
    | Except.ok (some _token) =>
        match env.syncResult with
        | Except.ok (accounts_synced, transactions_synced) =>
            (Except.ok true,
              [⟨companyId, "plaid", "full_sync",
                accounts_synced + transactions_synced, true, none⟩])
        | Except.error e => plaidFallbackSeed companyId env e

/-- Environment of one `sync_quickbooks_data` run: the stored-token lookup
and the outcome of the invoice/bill sync (counts or an error). -/
structure QBSyncEnv where
  tokens : Option Unit
  syncResult : Except String (Nat × Nat)
deriving Repr

/-- Function `sync_quickbooks_data` (data_sync_script.py lines 895-927): with no
tokens it prints and returns `True` without logging (the `mock_seed` logging
at lines 903-906 is commented out); on success it logs one `full_sync`
entry; on failure it returns `True` without logging (lines 923-926 are
commented out as well). -/
def sync_quickbooks_data (companyId : Nat) (env : QBSyncEnv) :
    Except String Bool × List LogEntry :=
  match env.tokens with
  | none => (Except.ok true, [])
  | some _ =>
      match env.syncResult with
      | Except.ok (invoices_synced, bills_synced) =>
          (Except.ok true,
            [⟨companyId, "quickbooks", "full_sync",
              invoices_synced + bills_synced, true, none⟩])
      | Except.error _ => (Except.ok true, [])

/-- The methods `DatabaseManager` actually defines (database_module.py):
neither `get_plaid_tokens` nor `set_plaid_tokens` is among them. -/
def databaseManagerMethods : List String :=
  [ "__init__", "get_connection", "init_database", "insert_demo_data"
  , "get_demo_accounts", "get_accounts", "get_recent_transactions"
  , "get_transactions", "get_invoices", "get_bills", "get_sync_status"
  , "save_account", "save_transaction", "save_invoice", "save_bill"
  , "log_sync", "get_account_by_plaid_id", "save_plaid_token"
  , "exchange_public_token", "get_plaid_token_record" ]

/-- Function `get_company_plaid_token` (data_sync_script.py lines 939-956): its first
statement evaluates `db.get_plaid_tokens(company_id)`; attribute lookup on
the `DatabaseManager` instance raises `AttributeError` when the method is not
defined, so the call never yields a token. -/
def get_company_plaid_token (_companyId : Nat) : Except String (Option String) :=
  if databaseManagerMethods.contains "get_plaid_tokens" then
    Except.ok none
  else
    Except.error
      "AttributeError: DatabaseManager object has no attribute get_plaid_tokens"

/-- Function `sync_plaid_data` with the token fetch wired to the real
`get_company_plaid_token` (data_sync_script.py line 417). -/
def sync_plaid_data (companyId : Nat) (clientAvailable : Bool)
    (seedResult syncResult : Except String (Nat × Nat)) :
    Except String Bool × List LogEntry :=
  sync_plaid_data_core companyId
    ⟨clientAvailable, get_company_plaid_token companyId, seedResult, syncResult⟩

/-- Whether an `Except` value is a success. -/
def exceptIsOk {ε α : Type} : Except ε α → Bool
  | Except.ok _ => true
  | Except.error _ => false

/-- The debit lines of a journal entry. -/
def debitLines (j : JournalEntry) : List JournalLine :=
  j.line.filter (fun l => l.postingType == PostingType.debit)

/-- The credit lines of a journal entry. -/
def creditLines (j : JournalEntry) : List JournalLine :=
  j.line.filter (fun l => l.postingType == PostingType.credit)

/-- Total amount of a list of journal lines. -/
def sumAmounts (ls : List JournalLine) : ℚ :=
  (ls.map (fun l => l.amount)).sum

/-- The bank-side account the journal builder resolves for a transaction. -/
def bankAccountFor (ensureAcc : EnsureAcc) (localAccounts : Nat → Option LocalAccount)
    (t : Txn) : AccountRef :=
  ensureAcc (bankDisplayName (localAccounts t.account_id)) "Bank" none

/-- The category-side account the journal builder resolves for a transaction. -/
def categoryAccountFor (ensureAcc : EnsureAcc) (t : Txn) : AccountRef :=
  let q := map_plaid_category_to_qb t.category (is_income t)
  ensureAcc q.1 q.2.1 q.2.2

/-- Number of batch items whose journal payload bears a given marker. -/
def itemNoteCount (items : List BatchItem) (m : String) : Nat :=
  (items.filter (fun it => it.journalEntry.privateNote == m)).length

/-- An API environment exhibiting the creation race of spec §4.4: name
lookups see nothing, while creation faults with the duplicate-name code
(an account of that name was created concurrently). -/
def qbRaceEnv : QBEnv :=
  { findEntity := fun _ _ => none
  , createEntity := fun _ _ => Except.error QBFault.duplicateName
  , getAccountByName := fun _ => none
  , createAccount := fun _ _ _ => Except.error QBFault.duplicateName }

/-- An account-resolution oracle returning a fixed id with the asked name. -/
def constAccountRef : EnsureAcc := fun name _ _ => ⟨"1", name⟩

/-- A local-account lookup that finds nothing (builder then uses "Bank"). -/
def noLocalAccounts : Nat → Option LocalAccount := fun _ => none

/-- The i-th of a family of pending outflow postings with distinct ids. -/
def mkPendingTxn (i : Nat) : Txn :=
  { account_id := 0
  , transaction_id := "T" ++ toString i
  , amount := -(1 : ℚ)
  , date := "2024-01-01"
  , merchant_name := none
  , category := ""
  , pending := false }

/-- A window of 73 pending postings with pairwise distinct transaction ids. -/
def pending73 : List Txn := (List.range 73).map mkPendingTxn

/-!  ## Helper lemmas -/

/-- List lookup `find?` returns the first element of a list satisfying the predicate. -/
theorem find?_of_first_match {α : Type} (p : α → Bool) (l₁ l₂ : List α) (a : α)
    (h₁ : ∀ x ∈ l₁, p x = false) (ha : p a = true) :
    (l₁ ++ a :: l₂).find? p = some a := by
  induction l₁ with
  | nil => simpa using List.find?_cons_of_pos l₂ ha
  | cons b bs ih =>
      have hb : p b = false := h₁ b (by simp)
      rw [List.cons_append, List.find?_cons_of_neg _ (by simp [hb])]
      exact ih (fun x hx => h₁ x (by simp [hx]))

/-- A marker count is zero exactly when the private-note lookup finds nothing. -/
theorem countMarker_eq_zero_iff (led : Ledger) (dt : DocType) (note : String) :
    countMarker led dt note = 0
      ↔ led.find? (fun d => d.docType == dt && d.privateNote == note) = none := by
  rw [countMarker, List.length_eq_zero, List.filter_eq_nil_iff, List.find?_eq_none]

/-- Marker counts add over ledger concatenation. -/
theorem countMarker_append (l₁ l₂ : Ledger) (dt : DocType) (note : String) :
    countMarker (l₁ ++ l₂) dt note = countMarker l₁ dt note + countMarker l₂ dt note := by
  simp [countMarker, List.filter_append]

/-- Marker count of a one-document ledger. -/
theorem countMarker_single (d : LedgerDoc) (dt : DocType) (note : String) :
    countMarker [d] dt note
      = if d.docType = dt ∧ d.privateNote = note then 1 else 0 := by
  simp only [countMarker, List.filter_cons, List.filter_nil, Bool.and_eq_true, beq_iff_eq]
  by_cases h : d.docType = dt ∧ d.privateNote = note
  · simp [h]
  · simp [h]

/-- Appending a document whose marker is absent keeps all counts at most 1. -/
theorem countMarker_append_fresh (led : Ledger) (d : LedgerDoc) (dt : DocType)
    (note : String) (h : countMarker led dt note ≤ 1)
    (hfresh : countMarker led d.docType d.privateNote = 0) :
    countMarker (led ++ [d]) dt note ≤ 1 := by
  rw [countMarker_append, countMarker_single]
  by_cases hd : d.docType = dt ∧ d.privateNote = note
  · rcases hd with ⟨h1, h2⟩
    subst h1; subst h2
    simp [hfresh]
  · rw [if_neg hd]
    omega

/-- The guarded invoice creation preserves the at-most-one-marker invariant. -/
theorem countMarker_create_invoice (led : Ledger) (t : Txn) (dt : DocType)
    (note : String) (h : countMarker led dt note ≤ 1) :
    countMarker (qb_create_invoice_from_txn led t).1 dt note ≤ 1 := by
  rw [qb_create_invoice_from_txn]
  cases hf : qb_find_invoice_by_privatenote led (pldNote t.transaction_id) with
  | some d => simpa using h
  | none =>
      simp only
      exact countMarker_append_fresh led _ dt note h
        ((countMarker_eq_zero_iff led DocType.invoice (pldNote t.transaction_id)).mpr hf)

/-- The guarded bill creation preserves the at-most-one-marker invariant. -/
theorem countMarker_create_bill (led : Ledger) (t : Txn) (dt : DocType)
    (note : String) (h : countMarker led dt note ≤ 1) :
    countMarker (qb_create_bill_from_txn led t).1 dt note ≤ 1 := by
  rw [qb_create_bill_from_txn]
  cases hf : qb_find_bill_by_privatenote led (pldNote t.transaction_id) with
  | some d => simpa using h
  | none =>
      simp only
      exact countMarker_append_fresh led _ dt note h
        ((countMarker_eq_zero_iff led DocType.bill (pldNote t.transaction_id)).mpr hf)

/-- The per-transaction document creation preserves the invariant. -/
theorem countMarker_syncTxnDoc (led : Ledger) (t : Txn) (dt : DocType)
    (note : String) (h : countMarker led dt note ≤ 1) :
    countMarker (syncTxnDoc led t) dt note ≤ 1 := by
  rw [syncTxnDoc]
  by_cases ha : 0 < t.amount
  · rw [if_pos ha]; exact countMarker_create_invoice led t dt note h
  · rw [if_neg ha]; exact countMarker_create_bill led t dt note h

/-- The whole invoice/bill pass preserves the invariant. -/
theorem countMarker_loop (txns : List Txn) (qb : Bool) (s : SyncState) (dt : DocType)
    (note : String) (h : countMarker s.ledger dt note ≤ 1) :
    countMarker (syncTransactionsLoop qb s txns).ledger dt note ≤ 1 := by
  induction txns generalizing s with
  | nil => exact h
  | cons t ts ih =>
      rw [syncTransactionsLoop, List.foldl_cons]
      refine ih (processTxn qb s t) ?_
      rw [processTxn]
      cases qb with
      | true => exact countMarker_syncTxnDoc s.ledger t dt note h
      | false => exact h

/-- The invoice/bill pass posts no journal entries, so journal counts are
unchanged by it. -/
theorem journal_count_syncTxnDoc (led : Ledger) (t : Txn) (note : String) :
    countMarker (syncTxnDoc led t) DocType.journal note
      = countMarker led DocType.journal note := by
  rw [syncTxnDoc]
  by_cases ha : 0 < t.amount
  · rw [if_pos ha, qb_create_invoice_from_txn]
    cases hf : qb_find_invoice_by_privatenote led (pldNote t.transaction_id) with
    | some d => simp
    | none => simp [countMarker_append, countMarker_single]
  · rw [if_neg ha, qb_create_bill_from_txn]
    cases hf : qb_find_bill_by_privatenote led (pldNote t.transaction_id) with
    | some d => simp
    | none => simp [countMarker_append, countMarker_single]

/-- Journal counts across the whole invoice/bill pass. -/
theorem journal_count_loop (txns : List Txn) (qb : Bool) (s : SyncState) (note : String) :
    countMarker (syncTransactionsLoop qb s txns).ledger DocType.journal note
      = countMarker s.ledger DocType.journal note := by
  induction txns generalizing s with
  | nil => rfl
  | cons t ts ih =>
      have step : syncTransactionsLoop qb s (t :: ts)
          = syncTransactionsLoop qb (processTxn qb s t) ts := by
        rw [syncTransactionsLoop, syncTransactionsLoop, List.foldl_cons]
      rw [step, ih (processTxn qb s t)]
      cases qb with
      | true => exact journal_count_syncTxnDoc s.ledger t note
      | false => rfl

/-- Marker count after appending one batch item. -/
theorem itemNoteCount_append_single (items : List BatchItem) (it : BatchItem)
    (m : String) :
    itemNoteCount (items ++ [it]) m
      = itemNoteCount items m
        + (if it.journalEntry.privateNote = m then 1 else 0) := by
  simp only [itemNoteCount, List.filter_append, List.length_append]
  congr 1
  simp only [List.filter_cons, List.filter_nil, beq_iff_eq]
  by_cases h : it.journalEntry.privateNote = m <;> simp [h]

/-- The `PLD:` marker is injective in the transaction id. -/
theorem pldNote_injective (a b : String) (h : pldNote a = pldNote b) : a = b := by
  have hd : ("PLD:" ++ a).data = ("PLD:" ++ b).data := congrArg String.data h
  rw [String.data_append, String.data_append] at hd
  exact String.ext (List.append_cancel_left hd)

/-- The journal payload the builder constructs carries the `PLD:` marker. -/
theorem mkJournalForTxn_privateNote (e : EnsureAcc)
    (l : Nat → Option LocalAccount) (t : Txn) :
    (mkJournalForTxn e l t).privateNote = pldNote t.transaction_id := rfl

/-- When the ledger already holds a journal entry bearing a marker, the batch
builder emits no item bearing that marker (the `skip if exists` guard,
data_sync_script.py lines 802-804). -/
theorem buildBatchAux_count_of_found (e : EnsureAcc)
    (l : Nat → Option LocalAccount) (led : Ledger) (m : String)
    (hf : (qb_find_journal_by_privatenote led m).isSome = true) :
    ∀ (ts : List Txn) (items : List BatchItem),
      itemNoteCount (buildBatchAux e l led ts items) m = itemNoteCount items m := by
  intro ts
  induction ts with
  | nil => intro items; rfl
  | cons t ts ih =>
      intro items
      rw [buildBatchAux]
      by_cases h30 : 30 ≤ items.length
      · rw [if_pos h30]
      · rw [if_neg h30]
        by_cases hft :
            (qb_find_journal_by_privatenote led (pldNote t.transaction_id)).isSome = true
        · rw [if_pos hft]; exact ih items
        · rw [if_neg hft, ih, itemNoteCount_append_single]
          have hne : (mkJournalForTxn e l t).privateNote ≠ m := by
            rw [mkJournalForTxn_privateNote]
            intro hEq
            rw [hEq] at hft
            exact hft hf
          rw [if_neg hne]
          omega

/-- The number of batch items bearing a marker is bounded by the number of
transactions mapping to that marker. -/
theorem buildBatchAux_count_le (e : EnsureAcc)
    (l : Nat → Option LocalAccount) (led : Ledger) (m : String) :
    ∀ (ts : List Txn) (items : List BatchItem),
      itemNoteCount (buildBatchAux e l led ts items) m
        ≤ itemNoteCount items m
          + ts.countP (fun t => pldNote t.transaction_id == m) := by
  intro ts
  induction ts with
  | nil => intro items; exact Nat.le_add_right _ _
  | cons t ts ih =>
      intro items
      rw [buildBatchAux, List.countP_cons]
      by_cases h30 : 30 ≤ items.length
      · rw [if_pos h30]; omega
      · rw [if_neg h30]
        by_cases hft :
            (qb_find_journal_by_privatenote led (pldNote t.transaction_id)).isSome = true
        · rw [if_pos hft]
          have := ih items
          omega
        · rw [if_neg hft]
          have hstep := ih (items ++ [⟨pldNote t.transaction_id, mkJournalForTxn e l t⟩])
          rw [itemNoteCount_append_single] at hstep
          simp only [mkJournalForTxn_privateNote] at hstep
          simp only [beq_iff_eq]
          by_cases hm : pldNote t.transaction_id = m
          · simp only [if_pos hm] at hstep
            rw [if_pos hm]
            omega
          · simp only [if_neg hm] at hstep
            rw [if_neg hm]
            omega

/-- In a window of pairwise-distinct transaction ids, at most one transaction
maps to any given marker. -/
theorem countP_marker_le_one (txns : List Txn) (m : String)
    (h : (txns.map (fun t => t.transaction_id)).Nodup) :
    txns.countP (fun t => pldNote t.transaction_id == m) ≤ 1 := by
  induction txns with
  | nil => simp
  | cons t ts ih =>
      rw [List.map_cons, List.nodup_cons] at h
      rw [List.countP_cons]
      by_cases hm : (pldNote t.transaction_id == m) = true
      · rw [if_pos hm]
        have hzero : ts.countP (fun t => pldNote t.transaction_id == m) = 0 := by
          rw [List.countP_eq_zero]
          intro u hu hum
          have h1 : pldNote u.transaction_id = m := beq_iff_eq.mp hum
          have h2 : pldNote t.transaction_id = m := beq_iff_eq.mp hm
          have hid : u.transaction_id = t.transaction_id :=
            pldNote_injective _ _ (h1.trans h2.symm)
          exact h.1 (hid ▸ List.mem_map_of_mem (fun t => t.transaction_id) hu)
        omega
      · rw [if_neg hm]
        have := ih h.2
        omega

/-- The journal documents a posted batch adds, counted by marker, are exactly
the batch items bearing that marker. -/
theorem countMarker_batch_docs (items : List BatchItem) (m : String) :
    countMarker (items.map (fun it => ⟨DocType.journal, it.journalEntry.privateNote⟩))
      DocType.journal m = itemNoteCount items m := by
  induction items with
  | nil => rfl
  | cons it its ih =>
      simp only [List.map_cons, countMarker, itemNoteCount, List.filter_cons] at *
      by_cases h : it.journalEntry.privateNote = m
      · simp [h] at *
        omega
      · simp [h] at *
        exact ih

/-- Posting a batch leaves invoice and bill counts unchanged. -/
theorem countMarker_postBatch_nonjournal (led : Ledger) (items : List BatchItem)
    (dt : DocType) (note : String) (hdt : dt ≠ DocType.journal) :
    countMarker (postBatchToLedger led items) dt note = countMarker led dt note := by
  rw [postBatchToLedger, countMarker_append]
  have hz : countMarker
      (items.map (fun it => ⟨DocType.journal, it.journalEntry.privateNote⟩)) dt note = 0 := by
    rw [countMarker, List.length_eq_zero, List.filter_eq_nil_iff]
    intro d hd
    rcases List.mem_map.mp hd with ⟨it, _, hit⟩
    simp only [← hit, Bool.and_eq_true, beq_iff_eq]
    intro hcon
    exact hdt hcon.1.symm
  omega

/-- Building and posting one journal batch preserves the at-most-one-marker
invariant on journal entries, for a window of distinct transaction ids. -/
theorem postBatch_journal_le_one (e : EnsureAcc) (l : Nat → Option LocalAccount)
    (led : Ledger) (txns : List Txn) (m : String)
    (hids : (txns.map (fun t => t.transaction_id)).Nodup)
    (h : countMarker led DocType.journal m ≤ 1) :
    countMarker (postBatchToLedger led (build_batch_journal_items e l led txns))
      DocType.journal m ≤ 1 := by
  rw [postBatchToLedger, countMarker_append, countMarker_batch_docs]
  by_cases h0 : countMarker led DocType.journal m = 0
  · have hb := buildBatchAux_count_le e l led m txns []
    have hc := countP_marker_le_one txns m hids
    rw [build_batch_journal_items]
    have hz : itemNoteCount ([] : List BatchItem) m = 0 := rfl
    omega
  · have hsome : (qb_find_journal_by_privatenote led m).isSome = true := by
      rw [qb_find_journal_by_privatenote]
      cases hfind : led.find? (fun d => d.docType == DocType.journal && d.privateNote == m) with
      | some d => rfl
      | none => exact absurd ((countMarker_eq_zero_iff led DocType.journal m).mpr hfind) h0
    rw [build_batch_journal_items, buildBatchAux_count_of_found e l led m hsome]
    have hz : itemNoteCount ([] : List BatchItem) m = 0 := rfl
    omega

/-- One full synchronization preserves the at-most-one-document-per-marker
invariant over the whole ledger. -/
theorem fullSyncLedger_preserves (e : EnsureAcc) (l : Nat → Option LocalAccount)
    (led : Ledger) (txns : List Txn)
    (hids : (txns.map (fun t => t.transaction_id)).Nodup)
    (h : ∀ dt note, countMarker led dt note ≤ 1) :
    ∀ dt note, countMarker (fullSyncLedger e l led txns) dt note ≤ 1 := by
  intro dt note
  rw [fullSyncLedger]
  by_cases hdt : dt = DocType.journal
  · subst hdt
    refine postBatch_journal_le_one e l _ txns note hids ?_
    rw [journal_count_loop]
    exact h DocType.journal note
  · rw [countMarker_postBatch_nonjournal _ _ _ _ hdt]
    exact countMarker_loop txns true _ dt note (h dt note)

/-!  ## Claim theorems -/

/-- C1: Idempotency of the full sync.  For every transaction window with
pairwise-distinct transaction ids and every ledger holding at most one
document per (entity kind, natural-key marker), running the full
synchronization twice still leaves at most one invoice, bill, or journal
entry bearing any given `PLD:<transaction_id>` marker — and each creator
checks the marker first and creates nothing when a document is found:
`qb_create_invoice_from_txn` and `qb_create_bill_from_txn` return the ledger
unchanged with `None`, and `build_batch_journal_items` emits no batch item
for a marker already present. -/
theorem full_sync_twice_creates_at_most_once (e : EnsureAcc)
    (l : Nat → Option LocalAccount) (led : Ledger) (txns : List Txn)
    (hids : (txns.map (fun t => t.transaction_id)).Nodup)
    (hled : ∀ dt note, countMarker led dt note ≤ 1) :
    (∀ dt note,
      countMarker (fullSyncLedger e l (fullSyncLedger e l led txns) txns) dt note ≤ 1)
    ∧ (∀ (led' : Ledger) (t : Txn),
        (qb_find_invoice_by_privatenote led' (pldNote t.transaction_id)).isSome = true →
        qb_create_invoice_from_txn led' t = (led', none))
    ∧ (∀ (led' : Ledger) (t : Txn),
        (qb_find_bill_by_privatenote led' (pldNote t.transaction_id)).isSome = true →
        qb_create_bill_from_txn led' t = (led', none))
    ∧ (∀ (led' : Ledger) (m : String) (ts : List Txn),
        (qb_find_journal_by_privatenote led' m).isSome = true →
        itemNoteCount (build_batch_journal_items e l led' ts) m = 0) := by
  refine ⟨?_, ?_, ?_, ?_⟩
  · exact fullSyncLedger_preserves e l _ txns hids
      (fullSyncLedger_preserves e l led txns hids hled)
  · intro led' t hfound
    rcases Option.isSome_iff_exists.mp hfound with ⟨d, hd⟩
    rw [qb_create_invoice_from_txn, hd]
  · intro led' t hfound
    rcases Option.isSome_iff_exists.mp hfound with ⟨d, hd⟩
    rw [qb_create_bill_from_txn, hd]
  · intro led' m ts hfound
    rw [build_batch_journal_items, buildBatchAux_count_of_found e l led' m hfound]
    rfl

/-- C1 witness: a concrete two-transaction window (one inflow, one outflow)
synced twice from an empty ledger leaves at most one invoice bearing the
first transaction's marker. -/
theorem full_sync_twice_witness :
    countMarker
      (fullSyncLedger constAccountRef noLocalAccounts
        (fullSyncLedger constAccountRef noLocalAccounts []
          [⟨1, "TA", 5, "2024-01-02", some "Acme", "Sales", false⟩,
           ⟨1, "TB", -3, "2024-01-03", some "AWS", "Cloud", false⟩])
        [⟨1, "TA", 5, "2024-01-02", some "Acme", "Sales", false⟩,
         ⟨1, "TB", -3, "2024-01-03", some "AWS", "Cloud", false⟩])
      DocType.invoice (pldNote "TA") ≤ 1 :=
  (full_sync_twice_creates_at_most_once constAccountRef noLocalAccounts []
    [⟨1, "TA", 5, "2024-01-02", some "Acme", "Sales", false⟩,
     ⟨1, "TB", -3, "2024-01-03", some "AWS", "Cloud", false⟩]
    (by decide) (fun _ _ => Nat.zero_le 1)).1 DocType.invoice (pldNote "TA")

/-- C2: DoubleEntryBuilder postcondition.  For every transaction the journal
entry the batch builder constructs has exactly two lines, each carrying
`round(abs(amount), 2)`; the debit total equals the credit total, both equal
to that rounded amount; and when the amount is positive the debit line
references the bank account and the credit line the resolved category
account, the two sides being swapped when the amount is negative. -/
theorem doubleEntryBuilder_postcondition (e : EnsureAcc)
    (l : Nat → Option LocalAccount) (t : Txn) :
    (mkJournalForTxn e l t).line.length = 2
    ∧ (∀ ln ∈ (mkJournalForTxn e l t).line, ln.amount = pyRound2 |t.amount|)
    ∧ sumAmounts (debitLines (mkJournalForTxn e l t)) = pyRound2 |t.amount|
    ∧ sumAmounts (creditLines (mkJournalForTxn e l t)) = pyRound2 |t.amount|
    ∧ sumAmounts (debitLines (mkJournalForTxn e l t))
        = sumAmounts (creditLines (mkJournalForTxn e l t))
    ∧ (0 < t.amount →
        (debitLines (mkJournalForTxn e l t)).map (fun ln => ln.accountRef)
            = [bankAccountFor e l t]
        ∧ (creditLines (mkJournalForTxn e l t)).map (fun ln => ln.accountRef)
            = [categoryAccountFor e t])
    ∧ (t.amount < 0 →
        (debitLines (mkJournalForTxn e l t)).map (fun ln => ln.accountRef)
            = [categoryAccountFor e t]
        ∧ (creditLines (mkJournalForTxn e l t)).map (fun ln => ln.accountRef)
            = [bankAccountFor e l t]) := by
  have hdd : (PostingType.debit == PostingType.debit) = true := rfl
  have hdc : (PostingType.debit == PostingType.credit) = false := rfl
  have hcd : (PostingType.credit == PostingType.debit) = false := rfl
  have hcc : (PostingType.credit == PostingType.credit) = true := rfl
  by_cases h : 0 < t.amount
  · have hinc : is_income t = true := decide_eq_true h
    refine ⟨rfl, ?_, ?_, ?_, ?_, ?_, ?_⟩
    · intro ln hln
      simp only [mkJournalForTxn, build_qb_journal_entry_lines,
        List.mem_cons, List.not_mem_nil, or_false] at hln
      rcases hln with h1 | h1 <;> rw [h1]
    · simp [mkJournalForTxn, build_qb_journal_entry_lines, debitLines,
        sumAmounts, List.filter_cons, hdd, hdc]
    · simp [mkJournalForTxn, build_qb_journal_entry_lines, creditLines,
        sumAmounts, List.filter_cons, hcd, hcc]
    · simp [mkJournalForTxn, build_qb_journal_entry_lines, debitLines, creditLines,
        sumAmounts, List.filter_cons, hdd, hdc, hcd, hcc]
    · intro _
      constructor <;>
        simp [mkJournalForTxn, build_qb_journal_entry_lines, debitLines, creditLines,
          bankAccountFor, categoryAccountFor, List.filter_cons, hinc,
          hdd, hdc, hcd, hcc]
    · intro hneg
      exact absurd hneg (lt_asymm h)
  · have hinc : is_income t = false := decide_eq_false h
    refine ⟨rfl, ?_, ?_, ?_, ?_, ?_, ?_⟩
    · intro ln hln
      simp only [mkJournalForTxn, build_qb_journal_entry_lines,
        List.mem_cons, List.not_mem_nil, or_false] at hln
      rcases hln with h1 | h1 <;> rw [h1]
    · simp [mkJournalForTxn, build_qb_journal_entry_lines, debitLines,
        sumAmounts, List.filter_cons, hdd, hdc]
    · simp [mkJournalForTxn, build_qb_journal_entry_lines, creditLines,
        sumAmounts, List.filter_cons, hcd, hcc]
    · simp [mkJournalForTxn, build_qb_journal_entry_lines, debitLines, creditLines,
        sumAmounts, List.filter_cons, hdd, hdc, hcd, hcc]
    · intro hpos
      exact absurd hpos h
    · intro _
      constructor <;>
        simp [mkJournalForTxn, build_qb_journal_entry_lines, debitLines, creditLines,
          bankAccountFor, categoryAccountFor, List.filter_cons, hinc,
          hdd, hdc, hcd, hcc]

/-- C2 witness: the journal built for a concrete inflow of 42.50 has two
lines of 42.50 each, debiting the bank account and crediting the mapped
sales account. -/
theorem doubleEntryBuilder_witness :
    (0 : ℚ) < 85/2
    ∧ (debitLines (mkJournalForTxn constAccountRef noLocalAccounts
        ⟨1, "TW", 85/2, "2024-01-02", some "Stripe", "Sales", false⟩)).map
          (fun ln => ln.accountRef)
        = [bankAccountFor constAccountRef noLocalAccounts
            ⟨1, "TW", 85/2, "2024-01-02", some "Stripe", "Sales", false⟩]
    ∧ sumAmounts (debitLines (mkJournalForTxn constAccountRef noLocalAccounts
        ⟨1, "TW", 85/2, "2024-01-02", some "Stripe", "Sales", false⟩))
        = pyRound2 |(85/2 : ℚ)| :=
  ⟨by norm_num,
   ((doubleEntryBuilder_postcondition constAccountRef noLocalAccounts
      ⟨1, "TW", 85/2, "2024-01-02", some "Stripe", "Sales", false⟩).2.2.2.2.2.1
      (by norm_num)).1,
   (doubleEntryBuilder_postcondition constAccountRef noLocalAccounts
      ⟨1, "TW", 85/2, "2024-01-02", some "Stripe", "Sales", false⟩).2.2.1⟩

/-- Creation-attempt count of `_qb_safe_create`'s loop is bounded by the
attempts already made plus the remaining fuel. -/
theorem qb_safe_create_loop_attempts (env : QBEnv) (rootKey baseName : String) :
    ∀ (fuel : Nat) (name : String) (attempts : Nat),
      (qb_safe_create_loop env rootKey baseName fuel name attempts).2
        ≤ attempts + fuel := by
  intro fuel
  induction fuel with
  | zero =>
      intro name attempts
      rw [qb_safe_create_loop]
      cases env.findEntity rootKey baseName <;> simp
  | succ fuel ih =>
      intro name attempts
      rw [qb_safe_create_loop]
      cases env.createEntity rootKey name with
      | ok e => simp
      | error f =>
          cases f with
          | duplicateName =>
              simp only
              cases hx : (if rootKey = "Customer" ∨ rootKey = "Vendor" ∨ rootKey = "Item"
                  then env.findEntity rootKey name else none) with
              | some e => simp
              | none =>
                  simp only
                  have := ih (baseName ++ "-" ++ toString (3 - fuel)) (attempts + 1)
                  omega
          | other msg => simp

/-- C3 counterexample: in the creation race of spec §4.4 — the name lookup
sees nothing while an account of that name already exists remotely — the
creation of the "Travel" account fails with the duplicate-name fault, and
`ensure_qb_account` propagates the fault as an exception instead of
returning the pre-existing account: the claimed recovery does not happen
for accounts. -/
theorem ensure_account_raises_on_duplicate :
    qb_create_account qbRaceEnv "Travel" "Expense" (some "Travel")
        = Except.error QBFault.duplicateName
    ∧ ensure_qb_account qbRaceEnv "Travel" "Expense" (some "Travel")
        = Except.error QBFault.duplicateName :=
  ⟨rfl, rfl⟩

/-- C3 amended: the duplicate-name recovery is implemented in
`_qb_safe_create`, which the code uses for Customer, Vendor and Item (not
for Account): it never makes more than 3 creation attempts, and when
creation fails with the duplicate-name fault and the entity of that name
exists, it returns the pre-existing entity without raising, after a single
creation attempt.  `ensure_qb_account`, by contrast, performs at most one
creation attempt and propagates a duplicate-name fault to its caller. -/
theorem safe_create_duplicate_recovery (env : QBEnv) (rootKey name : String)
    (entity : QBEntity)
    (hkind : rootKey = "Customer" ∨ rootKey = "Vendor" ∨ rootKey = "Item")
    (hdup : env.createEntity rootKey name = Except.error QBFault.duplicateName)
    (hexists : env.findEntity rootKey name = some entity) :
    (qb_safe_create env rootKey name).2 ≤ 3
    ∧ qb_safe_create env rootKey name = (Except.ok entity, 1)
    ∧ (env.getAccountByName name = none →
        ensure_qb_account env name "Expense" none
          = env.createAccount name "Expense" none) := by
  refine ⟨qb_safe_create_loop_attempts env rootKey name 3 name 0, ?_, ?_⟩
  · rw [qb_safe_create, qb_safe_create_loop, hdup]
    simp only [if_pos hkind, hexists]
  · intro hnone
    rw [ensure_qb_account, qb_get_account_by_name, hnone]
    rfl

/-- C3 witness: a concrete environment where creating the Customer "Travel"
faults with the duplicate-name code while the entity exists; `_qb_safe_create`
returns the pre-existing entity after one attempt, within the 3-attempt
bound. -/
theorem safe_create_duplicate_witness :
    (qb_safe_create
        ⟨fun _ _ => some ⟨some "7", "Travel"⟩,
         fun _ _ => Except.error QBFault.duplicateName,
         fun _ => none,
         fun _ _ _ => Except.error QBFault.duplicateName⟩
        "Customer" "Travel").2 ≤ 3
    ∧ qb_safe_create
        ⟨fun _ _ => some ⟨some "7", "Travel"⟩,
         fun _ _ => Except.error QBFault.duplicateName,
         fun _ => none,
         fun _ _ _ => Except.error QBFault.duplicateName⟩
        "Customer" "Travel" = (Except.ok ⟨some "7", "Travel"⟩, 1) :=
  ⟨(safe_create_duplicate_recovery _ "Customer" "Travel" ⟨some "7", "Travel"⟩
      (Or.inl rfl) rfl rfl).1,
   (safe_create_duplicate_recovery _ "Customer" "Travel" ⟨some "7", "Travel"⟩
      (Or.inl rfl) rfl rfl).2.1⟩

/-- The batch builder's accumulator never grows past 30 items. -/
theorem buildBatchAux_length_le (e : EnsureAcc) (l : Nat → Option LocalAccount)
    (led : Ledger) :
    ∀ (ts : List Txn) (items : List BatchItem), items.length ≤ 30 →
      (buildBatchAux e l led ts items).length ≤ 30 := by
  intro ts
  induction ts with
  | nil => intro items h; exact h
  | cons t ts ih =>
      intro items h
      rw [buildBatchAux]
      by_cases h30 : 30 ≤ items.length
      · rw [if_pos h30]; exact h
      · rw [if_neg h30]
        by_cases hft :
            (qb_find_journal_by_privatenote led (pldNote t.transaction_id)).isSome = true
        · rw [if_pos hft]; exact ih items h
        · rw [if_neg hft]
          refine ih _ ?_
          rw [List.length_append]
          simp only [List.length_cons, List.length_nil]
          omega

/-- C4 counterexample: given 73 pending postings (distinct ids, none yet in
the ledger), one run does not issue 3 batch submissions of sizes 30, 30 and
13 — `build_batch_journal_items` is called once, stops at 30 items, and
`qb_batch_post` submits that single chunk, so the 31st posting (id "T30",
marker "PLD:T30") is left unsubmitted in that run. -/
theorem batch_chunking_counterexample :
    pending73.length = 73
    ∧ (build_batch_journal_items constAccountRef noLocalAccounts [] pending73).length = 30
    ∧ ((qb_batch_post (build_batch_journal_items constAccountRef noLocalAccounts []
          pending73)).batchItemRequest.map (fun it => it.bId)).contains (pldNote "T30")
        = false := by
  refine ⟨rfl, ?_, ?_⟩ <;> rfl

/-- C4 amended: the batch poster does not partition the pending postings into
successive chunks; a run builds a single batch of at most 30 items (the first
30 not-yet-posted postings — the loop breaks at the API ceiling of 30) and
`qb_batch_post` submits exactly that one chunk as one batch request, leaving
any further pending postings unsubmitted in that run. -/
theorem batch_single_chunk_of_at_most_30 (e : EnsureAcc)
    (l : Nat → Option LocalAccount) (led : Ledger) (txns : List Txn) :
    (build_batch_journal_items e l led txns).length ≤ 30
    ∧ qb_batch_post (build_batch_journal_items e l led txns)
        = ⟨build_batch_journal_items e l led txns⟩ :=
  ⟨buildBatchAux_length_le e l led txns [] (by simp), rfl⟩

/-- C5 counterexample: a transaction whose local row already exists (and
whose remote invoice marker also exists) is still counted again by the sync
loop — the `transactions_synced` counter increments although the claim says
an already-processed transaction is not counted again.  The local-store
half of the guard is ignored: `save_transaction`'s 0 signal is discarded
(the skip at data_sync_script.py lines 637-639 is commented out). -/
theorem local_guard_ignored_counterexample :
    ((⟨[⟨1, 7, "T1", 5, "2024-01-01", some "Acme", "Sales", false⟩], 2⟩ : LocalDB).rows.any
        (fun r => r.plaid_transaction_id == "T1")) = true
    ∧ (save_transaction ⟨[⟨1, 7, "T1", 5, "2024-01-01", some "Acme", "Sales", false⟩], 2⟩
        ⟨7, "T1", 5, "2024-01-01", some "Acme", "Sales", false⟩).2 = 0
    ∧ (processTxn true
        ⟨⟨[⟨1, 7, "T1", 5, "2024-01-01", some "Acme", "Sales", false⟩], 2⟩,
         [⟨DocType.invoice, pldNote "T1"⟩], 0⟩
        ⟨7, "T1", 5, "2024-01-01", some "Acme", "Sales", false⟩).synced ≠ 0 := by
  refine ⟨rfl, rfl, ?_⟩
  decide

/-- C5 amended: the loop body invokes both layers but only the remote marker
actually guards: for a transaction whose local row already exists and whose
invoice and bill markers are already in the ledger, the loop leaves the local
store and the ledger unchanged (no double posting, thanks to the remote
lookup alone), yet still counts the transaction in `transactions_synced`. -/
theorem remote_marker_only_guard (s : SyncState) (t : Txn)
    (hlocal : s.db.rows.any (fun r => r.plaid_transaction_id == t.transaction_id) = true)
    (hinv : (qb_find_invoice_by_privatenote s.ledger (pldNote t.transaction_id)).isSome
        = true)
    (hbill : (qb_find_bill_by_privatenote s.ledger (pldNote t.transaction_id)).isSome
        = true) :
    processTxn true s t = ⟨s.db, s.ledger, s.synced + 1⟩ := by
  rw [processTxn, save_transaction, if_pos hlocal]
  rcases Option.isSome_iff_exists.mp hinv with ⟨di, hdi⟩
  rcases Option.isSome_iff_exists.mp hbill with ⟨db, hdb⟩
  rw [syncTxnDoc]
  by_cases ha : 0 < t.amount
  · rw [if_pos ha, qb_create_invoice_from_txn, hdi]
    rfl
  · rw [if_neg ha, qb_create_bill_from_txn, hdb]
    rfl

/-- C5 witness: the amended behaviour at a concrete already-processed
transaction. -/
theorem remote_marker_only_guard_witness :
    processTxn true
        ⟨⟨[⟨1, 7, "T2", -4, "2024-01-05", some "AWS", "Cloud", false⟩], 2⟩,
         [⟨DocType.invoice, pldNote "T2"⟩, ⟨DocType.bill, pldNote "T2"⟩], 5⟩
        ⟨7, "T2", -4, "2024-01-05", some "AWS", "Cloud", false⟩
      = ⟨⟨[⟨1, 7, "T2", -4, "2024-01-05", some "AWS", "Cloud", false⟩], 2⟩,
         [⟨DocType.invoice, pldNote "T2"⟩, ⟨DocType.bill, pldNote "T2"⟩], 6⟩ :=
  remote_marker_only_guard
    ⟨⟨[⟨1, 7, "T2", -4, "2024-01-05", some "AWS", "Cloud", false⟩], 2⟩,
     [⟨DocType.invoice, pldNote "T2"⟩, ⟨DocType.bill, pldNote "T2"⟩], 5⟩
    ⟨7, "T2", -4, "2024-01-05", some "AWS", "Cloud", false⟩
    (by decide) (by decide) (by decide)

/-- C6 counterexample: a ledger-sync invocation with no stored tokens
returns `True` but appends zero sync-log rows, not exactly one — the
`mock_seed` logging in that branch is commented out in the source. -/
theorem sync_log_missing_counterexample :
    sync_quickbooks_data 1 ⟨none, Except.ok (0, 0)⟩ = (Except.ok true, [])
    ∧ (sync_quickbooks_data 1 ⟨none, Except.ok (0, 0)⟩).2.length ≠ 1
    ∧ (sync_quickbooks_data 1 ⟨some (), Except.error "http 500"⟩).2.length ≠ 1 := by
  refine ⟨rfl, ?_, ?_⟩ <;> decide

/-- C6 amended: the banking sync (`sync_plaid_data`) appends exactly one
sync-log row on every run in which the Plaid client is present, and also
when the client is absent provided mock seeding succeeds (with no client, a
seeding failure propagates before any logging).  The ledger sync
(`sync_quickbooks_data`) appends exactly one row only when tokens are
present and the sync succeeds, and zero rows otherwise. -/
theorem one_sync_log_entry_per_run (companyId : Nat) (env : PlaidSyncEnv)
    (qenv : QBSyncEnv) :
    (env.clientAvailable = true → (sync_plaid_data_core companyId env).2.length = 1)
    ∧ (env.clientAvailable = false → exceptIsOk env.seedResult = true →
        (sync_plaid_data_core companyId env).2.length = 1)
    ∧ (sync_quickbooks_data companyId qenv).2.length
        = (if qenv.tokens.isSome = true ∧ exceptIsOk qenv.syncResult = true
           then 1 else 0) := by
  obtain ⟨ca, tok, seed, syncr⟩ := env
  obtain ⟨qtok, qsync⟩ := qenv
  refine ⟨?_, ?_, ?_⟩
  · intro hca
    subst hca
    cases tok with
    | error e =>
        cases seed with
        | ok p => cases p; rfl
        | error e' => rfl
    | ok o =>
        cases o with
        | none =>
            cases seed with
            | ok p => cases p; rfl
            | error e' => rfl
        | some tk =>
            cases syncr with
            | ok p => cases p; rfl
            | error e' =>
                cases seed with
                | ok p => cases p; rfl
                | error e'' => rfl
  · intro hca hseed
    subst hca
    cases seed with
    | ok p => cases p; rfl
    | error e' => exact absurd hseed (by simp [exceptIsOk])
  · cases qtok with
    | none => rfl
    | some u =>
        cases qsync with
        | ok p => cases p; rfl
        | error e' => rfl

/-- C6 witness: concrete runs — a banking sync whose token fetch failed
(client present) logs exactly one row, and a ledger sync with tokens and a
successful sync logs exactly one row. -/
theorem one_sync_log_entry_witness :
    (sync_plaid_data_core 3
        ⟨true, Except.error "boom", Except.ok (2, 3), Except.ok (1, 1)⟩).2.length = 1
    ∧ (sync_quickbooks_data 3 ⟨some (), Except.ok (4, 6)⟩).2.length
        = (if (some ()).isSome = true ∧ exceptIsOk (Except.ok (4, 6) : Except String (Nat × Nat)) = true
           then 1 else 0) :=
  ⟨(one_sync_log_entry_per_run 3
      ⟨true, Except.error "boom", Except.ok (2, 3), Except.ok (1, 1)⟩
      ⟨some (), Except.ok (4, 6)⟩).1 rfl,
   (one_sync_log_entry_per_run 3
      ⟨true, Except.error "boom", Except.ok (2, 3), Except.ok (1, 1)⟩
      ⟨some (), Except.ok (4, 6)⟩).2.2⟩

/-- C7: CategoryMapper contract.  Income always maps to the canonical sales
account; otherwise the lowercased category is matched by substring against
the ordered keyword table with the first matching keyword winning (in
particular "travel" yields Travel/Expense and "rent" yields Rent or
Lease/Expense), and with no match the canonical "Uncategorized Expense"
account is returned.  Determinism is immediate: the mapper is a pure
function of its two arguments. -/
theorem categoryMapper_contract :
    (∀ c : String,
      map_plaid_category_to_qb c true = ("Sales", "Income", some "SalesOfProductIncome"))
    ∧ map_plaid_category_to_qb "travel" false
        = ("Travel", "Expense", some "Travel")
    ∧ map_plaid_category_to_qb "rent" false
        = ("Rent or Lease", "Expense", some "RentOrLeaseOfBuildings")
    ∧ (∀ c : String, (∀ p ∈ qbCategoryMapping, strIn p.1 (pyLower c) = false) →
        map_plaid_category_to_qb c false
          = ("Uncategorized Expense", "Expense", some "UncategorizedExpense"))
    ∧ (∀ (c : String) (l₁ l₂ : List (String × (String × String × Option String)))
        (k : String) (v : String × String × Option String),
        qbCategoryMapping = l₁ ++ (k, v) :: l₂ →
        (∀ p ∈ l₁, strIn p.1 (pyLower c) = false) →
        strIn k (pyLower c) = true →
        map_plaid_category_to_qb c false = v) := by
  refine ⟨fun c => rfl, rfl, rfl, ?_, ?_⟩
  · intro c hnone
    rw [map_plaid_category_to_qb]
    simp only [if_neg Bool.false_ne_true]
    rw [List.find?_eq_none.mpr (fun p hp => by rw [hnone p hp]; exact Bool.false_ne_true)]
  · intro c l₁ l₂ k v htable hbefore hk
    rw [map_plaid_category_to_qb]
    simp only [if_neg Bool.false_ne_true]
    rw [htable, find?_of_first_match (fun p => strIn p.1 (pyLower c)) l₁ l₂ (k, v)
      (fun p hp => hbefore p hp) hk]

/-- C7 witness: "Air Travel" matches the "travel" keyword (no earlier keyword
matches) and maps to Travel/Expense; "AWS Cloud Hosting" matches no keyword
and falls back to Uncategorized Expense. -/
theorem categoryMapper_contract_witness :
    map_plaid_category_to_qb "Air Travel" false = ("Travel", "Expense", some "Travel")
    ∧ map_plaid_category_to_qb "AWS Cloud Hosting" false
        = ("Uncategorized Expense", "Expense", some "UncategorizedExpense") :=
  ⟨categoryMapper_contract.2.2.2.2 "Air Travel"
      [("advertising", ("Advertising", "Expense", some "Advertising")),
       ("marketing", ("Advertising", "Expense", some "Advertising"))]
      [("restaurant", ("Meals and Entertainment", "Expense", some "MealsAndEntertainment")),
       ("software", ("Software Subscriptions", "Expense", some "OfficeSupplies")),
       ("utilities", ("Utilities", "Expense", some "Utilities")),
       ("rent", ("Rent or Lease", "Expense", some "RentOrLeaseOfBuildings")),
       ("office", ("Office Supplies", "Expense", some "OfficeSupplies")),
       ("insurance", ("Insurance", "Expense", some "Insurance")),
       ("fee", ("Bank Charges", "Expense", some "BankCharges")),
       ("service", ("Legal & Professional Fees", "Expense", some "LegalProfessionalFees"))]
      "travel" ("Travel", "Expense", some "Travel") rfl (by decide) (by decide),
   categoryMapper_contract.2.2.2.1 "AWS Cloud Hosting" (by decide)⟩

/-- C8: sign convention at ingestion.  The stored local amount is the
negation of the vendor-reported amount; a vendor-reported outflow (positive
Plaid amount) is stored negative and classified as an expense, a
vendor-reported inflow (negative Plaid amount) is stored positive and
classified as income. -/
theorem sign_convention_at_ingestion (localAccountId : Nat) (tr : PlaidTxn) :
    (mkTransactionData localAccountId tr).amount = -tr.amount
    ∧ (0 < tr.amount → (mkTransactionData localAccountId tr).amount < 0
        ∧ is_income (mkTransactionData localAccountId tr) = false)
    ∧ (tr.amount < 0 → 0 < (mkTransactionData localAccountId tr).amount
        ∧ is_income (mkTransactionData localAccountId tr) = true) := by
  refine ⟨rfl, ?_, ?_⟩
  · intro h
    constructor
    · show -tr.amount < 0
      linarith
    · show decide (0 < -tr.amount) = false
      rw [decide_eq_false_iff_not]
      intro hc
      linarith
  · intro h
    constructor
    · show (0 : ℚ) < -tr.amount
      linarith
    · show decide (0 < -tr.amount) = true
      rw [decide_eq_true_eq]
      linarith

/-- C8 witness: an aggregator transaction reported as `amount = +42.50` is
stored locally as `amount = -42.50` and is not classified as income. -/
theorem sign_convention_witness :
    (mkTransactionData 1
        ⟨"TS", 85/2, "2024-01-02", some "Uber", ["Travel"], false⟩).amount = -(85/2)
    ∧ (mkTransactionData 1
        ⟨"TS", 85/2, "2024-01-02", some "Uber", ["Travel"], false⟩).amount < 0
    ∧ is_income (mkTransactionData 1
        ⟨"TS", 85/2, "2024-01-02", some "Uber", ["Travel"], false⟩) = false :=
  ⟨(sign_convention_at_ingestion 1
      ⟨"TS", 85/2, "2024-01-02", some "Uber", ["Travel"], false⟩).1,
   ((sign_convention_at_ingestion 1
      ⟨"TS", 85/2, "2024-01-02", some "Uber", ["Travel"], false⟩).2.1 (by norm_num)).1,
   ((sign_convention_at_ingestion 1
      ⟨"TS", 85/2, "2024-01-02", some "Uber", ["Travel"], false⟩).2.1 (by norm_num)).2⟩

/-- C9: `save_transaction` idempotency signal and atomicity.  With a positive
autoincrement counter: when the external transaction id is not yet stored, a
row holding the transaction's fields is appended and its positive rowid is
returned; when the id already exists, 0 is returned and the store — existing
rows included — is left completely unchanged. -/
theorem save_transaction_idempotency_signal (db : LocalDB) (t : Txn)
    (hpos : 0 < db.nextId) :
    ((db.rows.any (fun r => r.plaid_transaction_id == t.transaction_id)) = false →
      save_transaction db t
          = ({ rows := db.rows ++ [mkTxRow db t], nextId := db.nextId + 1 }, db.nextId)
      ∧ 0 < (save_transaction db t).2)
    ∧ ((db.rows.any (fun r => r.plaid_transaction_id == t.transaction_id)) = true →
      save_transaction db t = (db, 0)) := by
  constructor
  · intro h
    have heq : save_transaction db t
        = ({ rows := db.rows ++ [mkTxRow db t], nextId := db.nextId + 1 }, db.nextId) := by
      rw [save_transaction, if_neg (by rw [h]; exact Bool.false_ne_true)]
    exact ⟨heq, by rw [heq]; exact hpos⟩
  · intro h
    rw [save_transaction, if_pos h]

/-- C9 witness: a fresh id inserts with rowid 1; saving the same id again
returns 0 and leaves the stored row unchanged. -/
theorem save_transaction_witness :
    (save_transaction ⟨[], 1⟩ ⟨7, "T9", 5, "2024-01-01", some "Acme", "Sales", false⟩
        = (⟨[⟨1, 7, "T9", 5, "2024-01-01", some "Acme", "Sales", false⟩], 2⟩, 1)
      ∧ 0 < (save_transaction ⟨[], 1⟩
          ⟨7, "T9", 5, "2024-01-01", some "Acme", "Sales", false⟩).2)
    ∧ save_transaction ⟨[⟨1, 7, "T9", 5, "2024-01-01", some "Acme", "Sales", false⟩], 2⟩
        ⟨7, "T9", 5, "2024-01-01", some "Acme", "Sales", false⟩
        = (⟨[⟨1, 7, "T9", 5, "2024-01-01", some "Acme", "Sales", false⟩], 2⟩, 0) :=
  ⟨(save_transaction_idempotency_signal ⟨[], 1⟩
      ⟨7, "T9", 5, "2024-01-01", some "Acme", "Sales", false⟩ (by decide)).1 (by decide),
   (save_transaction_idempotency_signal
      ⟨[⟨1, 7, "T9", 5, "2024-01-01", some "Acme", "Sales", false⟩], 2⟩
      ⟨7, "T9", 5, "2024-01-01", some "Acme", "Sales", false⟩ (by decide)).2 (by decide)⟩

/-- C10: the real (non-fallback) banking sync path is unreachable.
`DatabaseManager` defines `save_plaid_token` and `get_plaid_token_record`
but no `get_plaid_tokens` (nor `set_plaid_tokens`), so
`get_company_plaid_token` raises `AttributeError` for every company; hence
whenever the Plaid client is configured, `sync_plaid_data` takes the outer
exception handler's fallback: its single log row is either a `mock_seed`
success or a failed `full_sync` record, never the successful `full_sync`
completion entry. -/
theorem plaid_real_sync_unreachable (companyId : Nat)
    (seedResult syncResult : Except String (Nat × Nat)) :
    databaseManagerMethods.contains "get_plaid_tokens" = false
    ∧ databaseManagerMethods.contains "set_plaid_tokens" = false
    ∧ exceptIsOk (get_company_plaid_token companyId) = false
    ∧ (sync_plaid_data companyId true seedResult syncResult).2.length = 1
    ∧ ((sync_plaid_data companyId true seedResult syncResult).2.all
        (fun entry => entry.sync_type == "mock_seed" || entry.success == false))
        = true := by
  refine ⟨rfl, rfl, rfl, ?_, ?_⟩ <;>
    cases seedResult with
    | ok p => cases p; rfl
    | error e => rfl
